import Mathlib

/-!
Shallow embedding of `adserver/views.py` (the ethical-ad-server tracking and
reporting views) and proofs about it.

The tracking pipeline (`BaseProxyView` and its two subclasses) is embedded as
pure functions over an explicit request environment and an explicit state.
Collaborators imported by the views from `adserver.models`, `adserver.utils`
and `adserver.constants` are not part of the sources; where their behaviour
matters they are modelled from the spec (each such definition carries a
doc comment saying so), and where only their results matter they are abstract
fields of the environment.
-/

set_option autoImplicit false

namespace AdServer

/-- Impression types `VIEWS` / `CLICKS` from `adserver.constants` (the
views read these two tags; the constants module is not under the
sources). -/
inductive ImpressionType
  | views
  | clicks
deriving DecidableEq

def VIEWS : ImpressionType := ImpressionType.views

def CLICKS : ImpressionType := ImpressionType.clicks

/-- Calendar dates and datetimes are modelled as integers (day numbers),
which supports the orderings and day arithmetic the views use. -/
abbrev Date := ℤ

/-- Result of `user_agents.parse` (third-party collaborator): the three
signals the views read from it. -/
structure UserAgentInfo where
  is_bot : Bool
  os_family : String
  browser_family : String

/-- Result of `get_geolocation` (collaborator): the views only read
`geo_data["country_code"]`. -/
structure GeoData where
  country_code : String

structure Publisher where
  id : ℕ
  name : String
  slug : String
deriving DecidableEq

structure Advertiser where
  id : ℕ
  name : String
  slug : String
deriving DecidableEq

/-- A flight: pricing and the geo-targeting predicate `show_to_geo` the
filter chain calls (`adserver.models`, behaviour abstract). -/
structure Flight where
  cpc : ℚ
  cpm : ℚ
  show_to_geo : Option String → Bool

/-- An advertisement. `get_publisher` resolves the publisher from a nonce;
per the spec a Publisher is "resolvable from a nonce" (`adserver.models` is
not under the sources, so the resolution itself is abstract data). -/
structure Advertisement where
  id : ℕ
  link : String
  slug : String
  flight : Flight
  get_publisher : String → Option Publisher

/-- Modelled from the spec: nonce states. A nonce is VALID, then CONSUMED
(terminal); expired or unknown nonces are modelled by absence from the
store (`adserver.models` is not under the sources). -/
inductive NonceState
  | valid
  | consumed
deriving DecidableEq

/-- An impression counter row, keyed elsewhere by
(advertisement id, publisher id, date). -/
structure ImpressionRecord where
  views : ℕ
  clicks : ℕ
  cost : ℚ
deriving DecidableEq

/-- The event payload `analytics_event` is called with in
`AdClickProxyView.send_to_analytics`. -/
structure AnalyticsEvent where
  event_category : String
  event_action : String
  event_label : String
  event_value : ℤ
  ua : String
  uip : String
deriving DecidableEq

/-- The mutable state the tracking views touch: the nonce store (keyed by
advertisement id, impression type and nonce), the impression counters, the
click rate-limit counters, and the log of dispatched analytics events. -/
structure TrackState where
  nonces : ℕ × ImpressionType × String → Option NonceState
  records : ℕ × ℕ × Date → ImpressionRecord
  rate_counts : String → ℕ
  analytics : List AnalyticsEvent

/-- The Django settings the tracking views read. -/
structure Settings where
  INTERNAL_IPS : List String
  DEBUG : Bool
  TESTING : Bool

/-- The parts of the inbound request the views read directly. -/
structure Request where
  user_is_staff : Bool
  http_referer : Option String

/-- The ambient environment of a tracking request: settings, the
advertisement table (`get_object_or_404(Advertisement, pk=...)`), the
collaborator functions imported from `adserver.utils` and third-party
libraries, and the current ad day. -/
structure Env where
  settings : Settings
  ads : ℕ → Option Advertisement
  get_client_ip : Request → String
  get_client_user_agent : Request → String
  parse_user_agent : String → UserAgentInfo
  get_geolocation : String → Option GeoData
  is_blacklisted_user_agent : String → Bool
  is_click_ratelimited : Request → Bool
  today : Date

/-- Modelled from the spec: `Advertisement.is_valid_nonce` (`adserver.models`
is not under the sources; spec §4.1 `isValid`): true only if the token
exists for this (advertisement, impression type) pair, is unexpired and is
still VALID. -/
def Advertisement.is_valid_nonce (advertisement : Advertisement) (s : TrackState)
    (impression_type : ImpressionType) (nonce : String) : Bool :=
  decide (s.nonces (advertisement.id, impression_type, nonce) = some NonceState.valid)

/-- Modelled from the spec: `Advertisement.invalidate_nonce`
(`adserver.models` is not under the sources; spec §4.1 `consume`):
transitions the nonce to CONSUMED. -/
def Advertisement.invalidate_nonce (advertisement : Advertisement) (s : TrackState)
    (impression_type : ImpressionType) (nonce : String) : TrackState :=
  { s with
    nonces := fun k =>
      if k = (advertisement.id, impression_type, nonce) then some NonceState.consumed
      else s.nonces k }

/-- Modelled from the spec: `Advertisement.track_impression`
(`adserver.models` is not under the sources; spec §4.4): atomically
increments `views` or `clicks` by 1 and `cost` by the flight's `cpm/1000`
per view or `cpc` per click, on the (advertisement, publisher, date) key.
The call site guarantees the publisher is resolved. -/
def Advertisement.track_impression (advertisement : Advertisement) (env : Env)
    (s : TrackState) (impression_type : ImpressionType)
    (publisher : Option Publisher) (_referrer : Option String) : TrackState :=
  match publisher with
  | none => s
  | some p =>
    { s with
      records := fun k =>
        if k = (advertisement.id, p.id, env.today) then
          let r := s.records k
          match impression_type with
          | ImpressionType.views =>
            { r with views := r.views + 1, cost := r.cost + advertisement.flight.cpm / 1000 }
          | ImpressionType.clicks =>
            { r with clicks := r.clicks + 1, cost := r.cost + advertisement.flight.cpc }
        else s.records k }

/-- `BaseProxyView.ignore_tracking_reason` from `adserver/views.py`:
returns a reason this impression should not be tracked, or `none` if it
should be tracked. -/
def ignore_tracking_reason (env : Env) (impression_type : ImpressionType)
    (s : TrackState) (request : Request) (advertisement : Advertisement)
    (nonce : String) (publisher : Option Publisher) : Option String :=
  let ip_address := env.get_client_ip request
  let user_agent := env.get_client_user_agent request
  let parsed_ua := env.parse_user_agent user_agent
  let country_code := (env.get_geolocation ip_address).map GeoData.country_code
  let valid_nonce := advertisement.is_valid_nonce s impression_type nonce
  if !valid_nonce then some "Old/Nonexistent nonce"
  else if parsed_ua.is_bot then some "Bot impression"
  else if decide (ip_address ∈ env.settings.INTERNAL_IPS) then some "Internal IP"
  else if decide (parsed_ua.os_family = "Other") && decide (parsed_ua.browser_family = "Other") then
    some "Unrecognized user agent"
  else if request.user_is_staff then some "Staff impression"
  else if env.is_blacklisted_user_agent user_agent then some "Blacklisted impression"
  else if publisher.isNone then some "Unknown publisher"
  else if !advertisement.flight.show_to_geo country_code then some "Invalid targeting impression"
  else if decide (impression_type = CLICKS) && env.is_click_ratelimited request then
    some "Ratelimited impression"
  else none

/-- First-match semantics for an ordered rule list, as the spec words the
fraud filter chain: "evaluates, in fixed order, short-circuiting on first
match, returning the first matching rejection reason or none". -/
def firstMatch : List (Bool × String) → Option String
  | [] => none
  | (b, r) :: rest => if b then some r else firstMatch rest

/-- The fraud filter chain exactly as the spec lists it (§4.3): the nine
rules in their fixed order, each paired with its rejection reason, built
from the same collaborator signals the code reads. -/
def fraud_filter_rules (env : Env) (impression_type : ImpressionType)
    (s : TrackState) (request : Request) (advertisement : Advertisement)
    (nonce : String) (publisher : Option Publisher) : List (Bool × String) :=
  let ip_address := env.get_client_ip request
  let user_agent := env.get_client_user_agent request
  let parsed_ua := env.parse_user_agent user_agent
  let country_code := (env.get_geolocation ip_address).map GeoData.country_code
  let valid_nonce := advertisement.is_valid_nonce s impression_type nonce
  [ (!valid_nonce, "Old/Nonexistent nonce"),
    (parsed_ua.is_bot, "Bot impression"),
    (decide (ip_address ∈ env.settings.INTERNAL_IPS), "Internal IP"),
    (decide (parsed_ua.os_family = "Other") && decide (parsed_ua.browser_family = "Other"),
      "Unrecognized user agent"),
    (request.user_is_staff, "Staff impression"),
    (env.is_blacklisted_user_agent user_agent, "Blacklisted impression"),
    (publisher.isNone, "Unknown publisher"),
    (!advertisement.flight.show_to_geo country_code, "Invalid targeting impression"),
    (decide (impression_type = CLICKS) && env.is_click_ratelimited request,
      "Ratelimited impression") ]

/-- The body of an HTTP response the tracking views build: Django's
`Http404`, an `HttpResponse` (status 200) with content and content type,
or an `HttpResponseRedirect` (status 302) with a location. -/
inductive ResponseBody
  | notFound
  | pixel (content : String) (content_type : String)
  | redirect (location : String)
deriving DecidableEq

/-- A response together with its optional `X-Adserver-Reason` header. -/
structure Response where
  body : ResponseBody
  x_adserver_reason : Option String
deriving DecidableEq

/-- The class-level data of a `BaseProxyView` subclass: its impression
type, success message and `get_response` implementation. -/
structure ProxyView where
  impression_type : ImpressionType
  success_message : String
  get_response : Request → Advertisement → ResponseBody

/-- `BaseProxyView.get` from `adserver/views.py`: resolve the ad (404 with
no side effects if absent), resolve the publisher from the nonce, run the
filter chain; when accepted, consume the nonce and track the impression;
build the response independently of the decision and attach the
`X-Adserver-Reason` header only for staff or when `DEBUG`/`TESTING` is
set. Returns the response and the updated state. -/
def BaseProxyView.get (v : ProxyView) (env : Env) (s : TrackState)
    (request : Request) (advertisement_id : ℕ) (nonce : String) :
    Response × TrackState :=
  match env.ads advertisement_id with
  | none => ({ body := ResponseBody.notFound, x_adserver_reason := none }, s)
  | some advertisement =>
    let publisher := advertisement.get_publisher nonce
    let referrer := request.http_referer
    let ignore_reason :=
      ignore_tracking_reason env v.impression_type s request advertisement nonce publisher
    let s' :=
      if ignore_reason.isNone then
        let s1 := advertisement.invalidate_nonce s v.impression_type nonce
        advertisement.track_impression env s1 v.impression_type publisher referrer
      else s
    let message := ignore_reason.getD v.success_message
    let response_body := v.get_response request advertisement
    let reason_header :=
      if env.settings.DEBUG || env.settings.TESTING || request.user_is_staff then some message
      else none
    ({ body := response_body, x_adserver_reason := reason_header }, s')

/-- `AdViewProxyView`: impression type VIEWS, success message
"Billed view", response is the SVG tracking pixel. -/
def AdViewProxyView : ProxyView :=
  { impression_type := VIEWS,
    success_message := "Billed view",
    get_response := fun _ _ =>
      ResponseBody.pixel "<svg><!-- View Proxy --></svg>" "image/svg+xml" }

/-- `AdClickProxyView`: impression type CLICKS, success message
"Billed click", response redirects to the advertisement's link. -/
def AdClickProxyView : ProxyView :=
  { impression_type := CLICKS,
    success_message := "Billed click",
    get_response := fun _ advertisement => ResponseBody.redirect advertisement.link }

/-- Modelled from the spec: `analytics_event` from `adserver.utils`
(not under the sources; spec §4.5 `AnalyticsDispatcher.dispatch`): appends
the event to the analytics sink log. -/
def analytics_event (s : TrackState) (e : AnalyticsEvent) : TrackState :=
  { s with analytics := s.analytics ++ [e] }

/-- `AdClickProxyView.send_to_analytics` from `adserver/views.py`: builds
the analytics event for a click (value in integer US cents, `cpc * 100`)
and dispatches it. Note: nothing in `adserver/views.py` ever calls this
method. -/
def AdClickProxyView.send_to_analytics (env : Env) (s : TrackState)
    (request : Request) (advertisement : Advertisement) (message : String) : TrackState :=
  let ip_address := env.get_client_ip request
  let user_agent := env.get_client_user_agent request
  analytics_event s
    { event_category := "Advertisement",
      event_action := message,
      event_label := advertisement.slug,
      event_value := (advertisement.flight.cpc * 100).floor,
      ua := user_agent,
      uip := ip_address }

/-! Report views (`BaseReportView` and the all-advertiser / all-publisher
aggregation views). -/

/-- `BaseReportView.DEFAULT_REPORT_DAYS`. -/
def DEFAULT_REPORT_DAYS : ℤ := 30

/-- The query parameters a report request carries; `none` models an absent
GET parameter. -/
structure ReportQuery where
  start_date : Option String
  end_date : Option String
  campaign_type : Option String

/-- `BaseReportView._parse_date_string`: parsing itself is done by Python's
`datetime.strptime` (standard-library collaborator), abstracted as the
`parse` function; `none` models the `ValueError` the method swallows. -/
def _parse_date_string (parse : String → Option Date) (date_str : String) : Option Date :=
  parse date_str

/-- `BaseReportView.get_start_date`: the parsed `start_date` parameter when
present and parseable, else today minus `DEFAULT_REPORT_DAYS`. -/
def get_start_date (parse : String → Option Date) (today : Date) (q : ReportQuery) : Date :=
  match q.start_date with
  | some s =>
    match _parse_date_string parse s with
    | some d => d
    | none => today - DEFAULT_REPORT_DAYS
  | none => today - DEFAULT_REPORT_DAYS

/-- `BaseReportView.get_end_date`: the parsed `end_date` parameter when
present and parseable, else `none` (unbounded). -/
def get_end_date (parse : String → Option Date) (q : ReportQuery) : Option Date :=
  match q.end_date with
  | some s =>
    match _parse_date_string parse s with
    | some d => some d
    | none => none
  | none => none

/-- The date context `BaseReportView.get_context_data` produces. -/
structure ReportContext where
  start_date : Date
  end_date : Option Date
  campaign_type : String
deriving DecidableEq

/-- `BaseReportView.get_context_data`: computes the start and end dates and
the `campaign_type` parameter, discarding an end date earlier than the
start date. -/
def BaseReportView.get_context_data (parse : String → Option Date) (today : Date)
    (q : ReportQuery) : ReportContext :=
  let start_date := get_start_date parse today q
  let end_date := get_end_date parse q
  let campaign_type := q.campaign_type.getD ""
  let end_date :=
    match end_date with
    | some e => if e < start_date then none else some e
    | none => none
  { start_date := start_date, end_date := end_date, campaign_type := campaign_type }

/-- Modelled from the spec: `calculate_ctr` from `adserver.utils` (not
under the sources): CTR = clicks / views × 100 when views > 0, else 0. -/
def calculate_ctr (clicks : ℕ) (views : ℕ) : ℚ :=
  if views = 0 then 0 else (clicks : ℚ) / (views : ℚ) * 100

/-- Modelled from the spec: `calculate_ecpm` from `adserver.utils` (not
under the sources): ECPM = cost / views × 1000 when views > 0, else 0. -/
def calculate_ecpm (cost : ℚ) (views : ℕ) : ℚ :=
  if views = 0 then 0 else cost / (views : ℚ) * 1000

/-- One row of a `daily_reports` result: the per-day dict with `date`,
`views`, `clicks`, `cost` and the derived `ctr` / `ecpm`. -/
structure DayRow where
  date : Date
  views : ℕ
  clicks : ℕ
  cost : ℚ
  ctr : ℚ
  ecpm : ℚ
deriving DecidableEq

/-- The `total` dict of a `daily_reports` result. -/
structure ReportTotal where
  views : ℕ
  clicks : ℕ
  cost : ℚ
  ctr : ℚ
  ecpm : ℚ
deriving DecidableEq

/-- A `daily_reports` result: per-day rows and the totals. -/
structure Report where
  days : List DayRow
  total : ReportTotal
deriving DecidableEq

/-- One `AdImpression` row as the aggregation views query it. The
`campaign_type` and `advertiser` fields embed the
`advertisement__flight__campaign__campaign_type` and
`advertisement -> flight -> campaign -> advertiser` join paths the two
selection queries traverse. -/
structure ImpressionRow where
  advertisement : ℕ
  publisher : ℕ
  advertiser : ℕ
  campaign_type : String
  date : Date
deriving DecidableEq

/-- The database and collaborators the report views read: the
`AdImpression` table, the `Publisher` and `Advertiser` tables, the
`daily_reports` model methods (in `adserver.models`, not under the
sources, so abstract), `CAMPAIGN_TYPES` from `adserver.constants`, the
date parser and the current ad day. -/
structure ReportsEnv where
  impressions : List ImpressionRow
  publishers_table : List Publisher
  advertisers_table : List Advertiser
  publisher_daily_reports : ℕ → Date → Option Date → Report
  advertiser_daily_reports : ℕ → Date → Option Date → Report
  CAMPAIGN_TYPES : List String
  parse : String → Option Date
  today : Date

/-- Python dict assignment `d[k] = v`: replace the value in place if the
key exists, else append the pair. -/
def dictInsert (xs : List (String × ℕ)) (k : String) (v : ℕ) : List (String × ℕ) :=
  match xs with
  | [] => [(k, v)]
  | (k', v') :: rest => if k' = k then (k, v) :: rest else (k', v') :: dictInsert rest k v

/-- One merged day of the aggregation loop: the per-date dict the loop
builds (`views`, `clicks`, `cost`, recomputed `ctr`, and the per-entity
breakdown maps `views_by_*` / `clicks_by_*`). -/
structure DayAgg where
  date : Date
  views : ℕ
  clicks : ℕ
  cost : ℚ
  ctr : ℚ
  views_by_entity : List (String × ℕ)
  clicks_by_entity : List (String × ℕ)
deriving DecidableEq

/-- The update the loop body applies for one per-entity day row: add the
row's views, clicks and cost, record the per-entity breakdown, and
recompute the day's CTR from the summed clicks and views. -/
def update_day (name : String) (row : DayRow) (a : DayAgg) : DayAgg :=
  { a with
    views := a.views + row.views,
    clicks := a.clicks + row.clicks,
    views_by_entity := dictInsert a.views_by_entity name row.views,
    clicks_by_entity := dictInsert a.clicks_by_entity name row.clicks,
    cost := a.cost + row.cost,
    ctr := calculate_ctr (a.clicks + row.clicks) (a.views + row.views) }

/-- The fresh `collections.defaultdict(int)` entry for a date not yet in
the `days` dict. -/
def blank_day (d : Date) : DayAgg :=
  { date := d, views := 0, clicks := 0, cost := 0, ctr := 0,
    views_by_entity := [], clicks_by_entity := [] }

/-- Find-or-create the date's entry and apply the loop body to it,
preserving the insertion order of the `days` dict. -/
def upsert_day (name : String) (row : DayRow) : List DayAgg → List DayAgg
  | [] => [update_day name row (blank_day row.date)]
  | a :: rest =>
    if a.date = row.date then update_day name row a :: rest
    else a :: upsert_day name row rest

/-- The "aggregate the different reports by day" loop shared verbatim by
`AllAdvertiserReportView.get_context_data` and
`AllPublisherReportView.get_context_data`: for each (entity name, report)
pair in order, fold every day row of the report into the `days` dict. -/
def aggregate_days (entries : List (String × Report)) : List DayAgg :=
  entries.foldl
    (fun days e => e.2.days.foldl (fun days day => upsert_day e.1 day days) days) []

/-- The context `AllPublisherReportView.get_context_data` returns: exactly
the keys the source puts into the context dict (note: the aggregated
`days` dict is not among them). -/
structure AllPublisherContext where
  start_date : Date
  end_date : Option Date
  campaign_type : String
  publishers : List Publisher
  publishers_and_reports : List (Publisher × Report)
  total_clicks : ℕ
  total_views : ℕ
  total_cost : ℚ
  total_ctr : ℚ
  total_ecpm : ℚ
  campaign_types : List String
deriving DecidableEq

/-- The successive `impressions = impressions.filter(...)` statements of
`AllPublisherReportView.get_context_data`: the `AdImpression` rows in the
date range, additionally filtered by campaign type when the
`campaign_type` parameter is a non-empty member of `CAMPAIGN_TYPES`. -/
def allPublisher_impressions (renv : ReportsEnv) (q : ReportQuery) : List ImpressionRow :=
  let context := BaseReportView.get_context_data renv.parse renv.today q
  let impressions := renv.impressions.filter (fun r : ImpressionRow => context.start_date ≤ r.date)
  let impressions :=
    match context.end_date with
    | some e => impressions.filter (fun r : ImpressionRow => r.date ≤ e)
    | none => impressions
  if context.campaign_type ≠ "" ∧ context.campaign_type ∈ renv.CAMPAIGN_TYPES then
    impressions.filter (fun r : ImpressionRow => r.campaign_type = context.campaign_type)
  else impressions

/-- The `publishers = Publisher.objects.filter(id__in=impressions.values("publisher"))`
statement: the publishers with at least one row among the filtered
impressions. -/
def allPublisher_selected (renv : ReportsEnv) (q : ReportQuery) : List Publisher :=
  renv.publishers_table.filter
    (fun p => ((allPublisher_impressions renv q).map ImpressionRow.publisher).contains p.id)

/-- The `publishers_and_reports` loop: each selected publisher's
`daily_reports` over the date range, kept only when its total views are
positive. -/
def allPublisher_pars (renv : ReportsEnv) (q : ReportQuery) : List (Publisher × Report) :=
  (allPublisher_selected renv q).filterMap (fun publisher =>
    let report := renv.publisher_daily_reports publisher.id
      (BaseReportView.get_context_data renv.parse renv.today q).start_date
      (BaseReportView.get_context_data renv.parse renv.today q).end_date
    if 0 < report.total.views then some (publisher, report) else none)

/-- `AllPublisherReportView.get_context_data`: select the publishers with
an impression in the date range (filtered by `campaign_type` when it is a
known campaign type), keep those whose report has positive total views,
sum the grand totals over the kept reports, aggregate the reports by day
(the source computes this `days` dict but never adds it to the returned
context), and return the context. -/
def AllPublisherReportView.get_context_data (renv : ReportsEnv) (q : ReportQuery) :
    AllPublisherContext :=
  let context := BaseReportView.get_context_data renv.parse renv.today q
  let publishers_and_reports := allPublisher_pars renv q
  let total_clicks := (publishers_and_reports.map (fun pr => pr.2.total.clicks)).sum
  let total_views := (publishers_and_reports.map (fun pr => pr.2.total.views)).sum
  let total_cost := (publishers_and_reports.map (fun pr => pr.2.total.cost)).sum
  let _days := aggregate_days (publishers_and_reports.map (fun pr => (pr.1.name, pr.2)))
  { start_date := context.start_date,
    end_date := context.end_date,
    campaign_type := context.campaign_type,
    publishers := publishers_and_reports.map Prod.fst,
    publishers_and_reports := publishers_and_reports,
    total_clicks := total_clicks,
    total_views := total_views,
    total_cost := total_cost,
    total_ctr := calculate_ctr total_clicks total_views,
    total_ecpm := calculate_ecpm total_cost total_views,
    campaign_types := renv.CAMPAIGN_TYPES }

/-- The context `AllAdvertiserReportView.get_context_data` returns:
exactly the keys the source puts into the context dict (again without the
aggregated `days` dict). -/
structure AllAdvertiserContext where
  start_date : Date
  end_date : Option Date
  campaign_type : String
  advertisers : List Advertiser
  advertisers_and_reports : List (Advertiser × Report)
  total_clicks : ℕ
  total_views : ℕ
  total_cost : ℚ
  total_ctr : ℚ
  total_ecpm : ℚ
deriving DecidableEq

/-- The date-range filtered `AdImpression` rows of
`AllAdvertiserReportView.get_context_data` (no campaign-type filter in
this view). -/
def allAdvertiser_impressions (renv : ReportsEnv) (q : ReportQuery) : List ImpressionRow :=
  let context := BaseReportView.get_context_data renv.parse renv.today q
  let impressions := renv.impressions.filter (fun r : ImpressionRow => context.start_date ≤ r.date)
  match context.end_date with
  | some e => impressions.filter (fun r : ImpressionRow => r.date ≤ e)
  | none => impressions

/-- The advertiser selection: advertisers reached from the filtered
impressions through the advertisement -> flight -> campaign -> advertiser
join. -/
def allAdvertiser_selected (renv : ReportsEnv) (q : ReportQuery) : List Advertiser :=
  renv.advertisers_table.filter
    (fun a => ((allAdvertiser_impressions renv q).map ImpressionRow.advertiser).contains a.id)

/-- The `advertisers_and_reports` loop: each selected advertiser's
`daily_reports` over the date range, kept only when its total views are
positive. -/
def allAdvertiser_pars (renv : ReportsEnv) (q : ReportQuery) : List (Advertiser × Report) :=
  (allAdvertiser_selected renv q).filterMap (fun advertiser =>
    let report := renv.advertiser_daily_reports advertiser.id
      (BaseReportView.get_context_data renv.parse renv.today q).start_date
      (BaseReportView.get_context_data renv.parse renv.today q).end_date
    if 0 < report.total.views then some (advertiser, report) else none)

/-- `AllAdvertiserReportView.get_context_data`: like the all-publisher
report but selecting advertisers through the advertisement join, with no
campaign-type filter. -/
def AllAdvertiserReportView.get_context_data (renv : ReportsEnv) (q : ReportQuery) :
    AllAdvertiserContext :=
  let context := BaseReportView.get_context_data renv.parse renv.today q
  let advertisers_and_reports := allAdvertiser_pars renv q
  let total_clicks := (advertisers_and_reports.map (fun pr => pr.2.total.clicks)).sum
  let total_views := (advertisers_and_reports.map (fun pr => pr.2.total.views)).sum
  let total_cost := (advertisers_and_reports.map (fun pr => pr.2.total.cost)).sum
  let _days := aggregate_days (advertisers_and_reports.map (fun pr => (pr.1.name, pr.2)))
  { start_date := context.start_date,
    end_date := context.end_date,
    campaign_type := context.campaign_type,
    advertisers := advertisers_and_reports.map Prod.fst,
    advertisers_and_reports := advertisers_and_reports,
    total_clicks := total_clicks,
    total_views := total_views,
    total_cost := total_cost,
    total_ctr := calculate_ctr total_clicks total_views,
    total_ecpm := calculate_ecpm total_cost total_views }

/-! Concrete fixtures used by witnesses and counterexamples. -/

/-- A concrete publisher. -/
def cPub : Publisher := { id := 7, name := "P", slug := "p" }

/-- A concrete advertisement with id 1 that resolves `cPub` from any nonce
and whose flight shows to every geo. -/
def cAd : Advertisement :=
  { id := 1,
    link := "https://example.com/landing",
    slug := "ad-slug",
    flight := { cpc := 2, cpm := 1, show_to_geo := fun _ => true },
    get_publisher := fun _ => some cPub }

/-- A concrete non-staff request. -/
def cRequest : Request := { user_is_staff := false, http_referer := none }

/-- A benign environment: ad 1 exists, the visitor is an ordinary external
browser user, nothing is blacklisted or ratelimited, all diagnostics off. -/
def benignEnv : Env :=
  { settings := { INTERNAL_IPS := [], DEBUG := false, TESTING := false },
    ads := fun i => if i = 1 then some cAd else none,
    get_client_ip := fun _ => "203.0.113.9",
    get_client_user_agent := fun _ => "Mozilla/5.0",
    parse_user_agent := fun _ =>
      { is_bot := false, os_family := "Mac OS X", browser_family := "Chrome" },
    get_geolocation := fun _ => some { country_code := "US" },
    is_blacklisted_user_agent := fun _ => false,
    is_click_ratelimited := fun _ => false,
    today := 100 }

/-- A concrete state: the nonce "n0" is VALID for ad 1 for both impression
types, all counters are zero, no analytics were dispatched. -/
def cState : TrackState :=
  { nonces := fun k =>
      if k = (1, CLICKS, "n0") || k = (1, VIEWS, "n0") then some NonceState.valid
      else none,
    records := fun _ => { views := 0, clicks := 0, cost := 0 },
    rate_counts := fun _ => 0,
    analytics := [] }

/-- A concrete state in which the nonce "n0" has already been consumed for
ad 1 clicks and views. -/
def consumedState : TrackState :=
  { cState with
    nonces := fun k =>
      if k = (1, CLICKS, "n0") || k = (1, VIEWS, "n0") then some NonceState.consumed
      else none }

/-! Claim theorems. -/

/-- C1: for every tracking request, `BaseProxyView.ignore_tracking_reason`
computes exactly the first-match semantics of the spec's ordered fraud
filter rule list: invalid nonce, bot, internal IP, unrecognized user agent,
staff, blacklisted, unknown publisher, disallowed geo, and (for CLICKS
only) the click rate limit, each with its reason string, `none` when no
rule matches. -/
theorem C1_filter_chain_first_match (env : Env) (impression_type : ImpressionType)
    (s : TrackState) (request : Request) (advertisement : Advertisement)
    (nonce : String) (publisher : Option Publisher) :
    ignore_tracking_reason env impression_type s request advertisement nonce publisher =
      firstMatch (fraud_filter_rules env impression_type s request advertisement nonce publisher) :=
  rfl

example :
    ignore_tracking_reason benignEnv CLICKS cState cRequest cAd "n0" (some cPub) = none := by
  decide

example :
    ignore_tracking_reason benignEnv CLICKS consumedState cRequest cAd "n0" (some cPub) =
      some "Old/Nonexistent nonce" := by
  decide

example :
    ignore_tracking_reason benignEnv VIEWS cState
      { cRequest with user_is_staff := true } cAd "n0" (some cPub) =
      some "Staff impression" := by
  decide

/-- An environment identical to `benignEnv` except that settings have
`TESTING = True` (and still `DEBUG = False`). -/
def testingEnv : Env :=
  { benignEnv with settings := { INTERNAL_IPS := [], DEBUG := false, TESTING := true } }

/-- An environment identical to `benignEnv` except that the user agent is
blacklisted, so the filter chain rejects where `benignEnv` accepts. -/
def blacklistEnv : Env :=
  { benignEnv with is_blacklisted_user_agent := fun _ => true }

/-- C2: a fully accepted (billable) click request consumes the nonce and
records the click with its cost, but `BaseProxyView.get` never calls
`AdClickProxyView.send_to_analytics` and touches no rate-limit counter: the
analytics log is left exactly as it was, so no analytics event is
dispatched for the billed click, contrary to the claim. -/
theorem C2_accepted_click_dispatches_no_analytics :
    (BaseProxyView.get AdClickProxyView benignEnv cState cRequest 1 "n0").2.analytics = [] ∧
    (BaseProxyView.get AdClickProxyView benignEnv cState cRequest 1 "n0").2.nonces
      (1, CLICKS, "n0") = some NonceState.consumed ∧
    ((BaseProxyView.get AdClickProxyView benignEnv cState cRequest 1 "n0").2.records
      (1, 7, 100)).clicks = 1 ∧
    ((BaseProxyView.get AdClickProxyView benignEnv cState cRequest 1 "n0").2.records
      (1, 7, 100)).cost = 2 ∧
    (BaseProxyView.get AdClickProxyView benignEnv cState cRequest 1 "n0").2.rate_counts
      "203.0.113.9" = 0 ∧
    (AdClickProxyView.send_to_analytics benignEnv
        (BaseProxyView.get AdClickProxyView benignEnv cState cRequest 1 "n0").2
        cRequest cAd "Billed click").analytics ≠ [] := by
  refine ⟨rfl, by decide, by decide, ?_, rfl, by decide⟩
  simp +decide [BaseProxyView.get, benignEnv, cState, cAd, cRequest, cPub, AdClickProxyView,
    ignore_tracking_reason, Advertisement.is_valid_nonce, Advertisement.invalidate_nonce,
    Advertisement.track_impression, CLICKS, VIEWS]

/-- C3: with the advertisement resolved, (1) any rejected tracking request
leaves the whole state untouched — the nonce is not consumed and no
counter is mutated — and (2) replaying an already-consumed nonce is
rejected with reason "Old/Nonexistent nonce" and also leaves the state
untouched, so a rejected nonce stays exactly as it was and can be
retried. -/
theorem C3_rejected_requests_mutate_nothing (v : ProxyView) (env : Env)
    (s : TrackState) (request : Request) (advertisement_id : ℕ) (nonce : String)
    (ad : Advertisement) (had : env.ads advertisement_id = some ad) :
    (ignore_tracking_reason env v.impression_type s request ad nonce
        (ad.get_publisher nonce) ≠ none →
      (BaseProxyView.get v env s request advertisement_id nonce).2 = s) ∧
    (s.nonces (ad.id, v.impression_type, nonce) = some NonceState.consumed →
      ignore_tracking_reason env v.impression_type s request ad nonce
          (ad.get_publisher nonce) = some "Old/Nonexistent nonce" ∧
      (BaseProxyView.get v env s request advertisement_id nonce).2 = s) := by
  have hreject :
      ignore_tracking_reason env v.impression_type s request ad nonce
          (ad.get_publisher nonce) ≠ none →
        (BaseProxyView.get v env s request advertisement_id nonce).2 = s := by
    intro h
    simp only [BaseProxyView.get, had]
    rcases hx : ignore_tracking_reason env v.impression_type s request ad nonce
        (ad.get_publisher nonce) with _ | r
    · exact absurd hx h
    · simp [hx]
  refine ⟨hreject, fun hcons => ?_⟩
  have hreason :
      ignore_tracking_reason env v.impression_type s request ad nonce
          (ad.get_publisher nonce) = some "Old/Nonexistent nonce" := by
    simp [ignore_tracking_reason, Advertisement.is_valid_nonce, hcons]
  exact ⟨hreason, hreject (by simp [hreason])⟩

/-- C3 witness: replaying the consumed nonce "n0" on ad 1 is rejected with
"Old/Nonexistent nonce" and leaves the state untouched. -/
theorem C3_witness :
    ignore_tracking_reason benignEnv AdViewProxyView.impression_type consumedState
        cRequest cAd "n0" (cAd.get_publisher "n0") = some "Old/Nonexistent nonce" ∧
    (BaseProxyView.get AdViewProxyView benignEnv consumedState cRequest 1 "n0").2 =
      consumedState :=
  (C3_rejected_requests_mutate_nothing AdViewProxyView benignEnv consumedState
    cRequest 1 "n0" cAd rfl).2 (by decide)

/-- C4: whenever the advertisement resolves, the visitor-facing response
body is independent of the accept/reject decision: the VIEW proxy always
answers with the 200 SVG tracking pixel and the CLICK proxy always answers
with the redirect to the advertisement's destination link, whatever the
filter chain decided (the decision signals in `env` and the nonce state in
`s` are arbitrary here). -/
theorem C4_response_independent_of_decision (env : Env) (s : TrackState)
    (request : Request) (advertisement_id : ℕ) (nonce : String)
    (ad : Advertisement) (had : env.ads advertisement_id = some ad) :
    (BaseProxyView.get AdViewProxyView env s request advertisement_id nonce).1.body =
      ResponseBody.pixel "<svg><!-- View Proxy --></svg>" "image/svg+xml" ∧
    (BaseProxyView.get AdClickProxyView env s request advertisement_id nonce).1.body =
      ResponseBody.redirect ad.link := by
  constructor <;> simp [BaseProxyView.get, had, AdViewProxyView, AdClickProxyView]

/-- C4 witness: on a concrete accepted view and on a concrete rejected
(consumed-nonce) click, the bodies are the pixel and the redirect. -/
theorem C4_witness :
    (BaseProxyView.get AdViewProxyView benignEnv cState cRequest 1 "n0").1.body =
      ResponseBody.pixel "<svg><!-- View Proxy --></svg>" "image/svg+xml" ∧
    (BaseProxyView.get AdClickProxyView benignEnv consumedState cRequest 1 "n0").1.body =
      ResponseBody.redirect cAd.link :=
  ⟨(C4_response_independent_of_decision benignEnv cState cRequest 1 "n0" cAd rfl).1,
   (C4_response_independent_of_decision benignEnv consumedState cRequest 1 "n0" cAd rfl).2⟩

/-- C5: when the advertisement id matches no advertisement, the handler
returns the not-found response with no reason header and the state is
returned entirely unchanged: no nonce is touched, no counter is mutated,
no analytics event is dispatched. -/
theorem C5_unknown_ad_not_found_no_side_effects (v : ProxyView) (env : Env)
    (s : TrackState) (request : Request) (advertisement_id : ℕ) (nonce : String)
    (h : env.ads advertisement_id = none) :
    BaseProxyView.get v env s request advertisement_id nonce =
      ({ body := ResponseBody.notFound, x_adserver_reason := none }, s) := by
  simp [BaseProxyView.get, h]

/-- C5 witness: ad id 99 does not exist in `benignEnv`. -/
theorem C5_witness :
    BaseProxyView.get AdViewProxyView benignEnv cState cRequest 99 "n0" =
      ({ body := ResponseBody.notFound, x_adserver_reason := none }, cState) :=
  C5_unknown_ad_not_found_no_side_effects AdViewProxyView benignEnv cState cRequest 99 "n0" rfl

/-- C6 counterexample: with `TESTING = True` but `DEBUG = False` and a
non-staff visitor, the `X-Adserver-Reason` header is still attached, so
the header is not present only in debug or staff contexts. -/
theorem C6_counterexample_testing_header :
    (BaseProxyView.get AdViewProxyView testingEnv cState cRequest 1 "n0").1.x_adserver_reason =
      some "Billed view" ∧
    testingEnv.settings.DEBUG = false ∧ cRequest.user_is_staff = false := by
  refine ⟨by decide, rfl, rfl⟩

/-- C6 (amended): the `X-Adserver-Reason` header is present exactly when
`DEBUG` or `TESTING` is set or the visitor is staff; and for a non-staff
visitor with both `DEBUG` and `TESTING` off, the visitor-facing response
is identical across any two runs of the same request that resolve the same
advertisement — however the filter-chain decision differs. -/
theorem C6_header_only_debug_testing_staff :
    (∀ (v : ProxyView) (env : Env) (s : TrackState) (request : Request)
        (advertisement_id : ℕ) (nonce : String) (ad : Advertisement),
      env.ads advertisement_id = some ad →
      ((BaseProxyView.get v env s request advertisement_id nonce).1.x_adserver_reason).isSome =
        (env.settings.DEBUG || env.settings.TESTING || request.user_is_staff)) ∧
    (∀ (v : ProxyView) (env1 env2 : Env) (s1 s2 : TrackState) (request : Request)
        (advertisement_id : ℕ) (nonce : String),
      env1.ads advertisement_id = env2.ads advertisement_id →
      env1.settings.DEBUG = false → env1.settings.TESTING = false →
      env2.settings.DEBUG = false → env2.settings.TESTING = false →
      request.user_is_staff = false →
      (BaseProxyView.get v env1 s1 request advertisement_id nonce).1 =
        (BaseProxyView.get v env2 s2 request advertisement_id nonce).1) := by
  constructor
  · intro v env s request advertisement_id nonce ad had
    simp only [BaseProxyView.get, had]
    rcases hc : env.settings.DEBUG || env.settings.TESTING || request.user_is_staff with _ | _ <;>
      simp [hc]
  · intro v env1 env2 s1 s2 request advertisement_id nonce hads h1 h2 h3 h4 h5
    rcases hx : env2.ads advertisement_id with _ | ad
    · rw [hx] at hads
      simp [BaseProxyView.get, hads, hx]
    · rw [hx] at hads
      simp [BaseProxyView.get, hads, hx, h1, h2, h3, h4, h5]

/-- C6 witness: in the benign (non-debug, non-testing, non-staff) run the
header is absent, and the accepted run and the blacklisted-rejected run of
the same request produce the identical response. -/
theorem C6_witness :
    ((BaseProxyView.get AdViewProxyView benignEnv cState cRequest 1 "n0").1.x_adserver_reason).isSome =
      (benignEnv.settings.DEBUG || benignEnv.settings.TESTING || cRequest.user_is_staff) ∧
    (BaseProxyView.get AdViewProxyView benignEnv cState cRequest 1 "n0").1 =
      (BaseProxyView.get AdViewProxyView blacklistEnv cState cRequest 1 "n0").1 :=
  ⟨C6_header_only_debug_testing_staff.1 AdViewProxyView benignEnv cState cRequest 1 "n0" cAd rfl,
   C6_header_only_debug_testing_staff.2 AdViewProxyView benignEnv blacklistEnv cState cState
     cRequest 1 "n0" rfl rfl rfl rfl rfl rfl⟩

/-! Report fixtures. -/

/-- A date parser that fails on every input. -/
def badParse : String → Option Date := fun _ => none

/-- A date parser recognising the two dates the reversed-range witness
uses. -/
def revParse : String → Option Date := fun s =>
  if s = "2020-02-01" then some 31 else if s = "2020-01-01" then some 0 else none

/-- A report query whose two date parameters are present but malformed. -/
def qBad : ReportQuery :=
  { start_date := some "not-a-date", end_date := some "junk", campaign_type := none }

/-- A report query whose end date parses to a day before its start date. -/
def qRev : ReportQuery :=
  { start_date := some "2020-02-01", end_date := some "2020-01-01", campaign_type := none }

/-- The two publishers of the spec's aggregation scenario. -/
def pub1 : Publisher := { id := 1, name := "P1", slug := "p1" }

def pub2 : Publisher := { id := 2, name := "P2", slug := "p2" }

/-- The scenario report: one day (day 5) with views 10, clicks 1,
cost 1.00. -/
def scenario_report : Report :=
  { days := [{ date := 5, views := 10, clicks := 1, cost := 1, ctr := 10, ecpm := 100 }],
    total := { views := 10, clicks := 1, cost := 1, ctr := 10, ecpm := 100 } }

/-- A report with no days and zero totals. -/
def empty_report : Report :=
  { days := [], total := { views := 0, clicks := 0, cost := 0, ctr := 0, ecpm := 0 } }

/-- The aggregation scenario: two publishers, each with one impression row
in range and the scenario report; every other entity reports zero. -/
def scenario_renv : ReportsEnv :=
  { impressions :=
      [ { advertisement := 1, publisher := 1, advertiser := 1, campaign_type := "paid", date := 5 },
        { advertisement := 2, publisher := 2, advertiser := 1, campaign_type := "paid", date := 5 } ],
    publishers_table := [pub1, pub2],
    advertisers_table := [{ id := 1, name := "A1", slug := "a1" }],
    publisher_daily_reports := fun pid _ _ =>
      if pid = 1 ∨ pid = 2 then scenario_report else empty_report,
    advertiser_daily_reports := fun _ _ _ => empty_report,
    CAMPAIGN_TYPES := ["paid", "community", "house"],
    parse := fun _ => none,
    today := 30 }

/-- A report query with no parameters at all. -/
def scenario_query : ReportQuery :=
  { start_date := none, end_date := none, campaign_type := none }

/-- C7: a missing or malformed `start_date` parameter falls back to today
minus `DEFAULT_REPORT_DAYS`; a missing or malformed `end_date` parameter
falls back to `none` (unbounded); and when both dates parse but the end
date is strictly earlier than the start date, the end date is discarded.
No case is an error: `get_context_data` is total. -/
theorem C7_malformed_dates_fall_back (parse : String → Option Date) (today : Date)
    (q : ReportQuery) :
    (q.start_date.bind parse = none →
      (BaseReportView.get_context_data parse today q).start_date =
        today - DEFAULT_REPORT_DAYS) ∧
    (q.end_date.bind parse = none →
      (BaseReportView.get_context_data parse today q).end_date = none) ∧
    (∀ sd ed : Date, q.start_date.bind parse = some sd → q.end_date.bind parse = some ed →
      ed < sd → (BaseReportView.get_context_data parse today q).end_date = none) := by
  refine ⟨?_, ?_, ?_⟩
  · intro h
    rcases hs : q.start_date with _ | s
    · simp [BaseReportView.get_context_data, get_start_date, hs]
    · rw [hs, Option.some_bind] at h
      simp [BaseReportView.get_context_data, get_start_date, _parse_date_string, hs, h]
  · intro h
    rcases he : q.end_date with _ | s
    · simp [BaseReportView.get_context_data, get_end_date, he]
    · rw [he, Option.some_bind] at h
      simp [BaseReportView.get_context_data, get_end_date, _parse_date_string, he, h]
  · intro sd ed hsd hed hlt
    rcases hs : q.start_date with _ | s
    · rw [hs] at hsd; exact absurd hsd (by simp)
    · rcases he : q.end_date with _ | t
      · rw [he] at hed; exact absurd hed (by simp)
      · rw [hs, Option.some_bind] at hsd
        rw [he, Option.some_bind] at hed
        simp [BaseReportView.get_context_data, get_start_date, get_end_date,
          _parse_date_string, hs, he, hsd, hed, hlt]

/-- C7 witness: malformed dates fall back to the defaults, and a reversed
range (end day 0 before start day 31) discards the end date. -/
theorem C7_witness :
    (BaseReportView.get_context_data badParse 100 qBad).start_date =
      100 - DEFAULT_REPORT_DAYS ∧
    (BaseReportView.get_context_data badParse 100 qBad).end_date = none ∧
    (BaseReportView.get_context_data revParse 100 qRev).end_date = none :=
  ⟨(C7_malformed_dates_fall_back badParse 100 qBad).1 rfl,
   (C7_malformed_dates_fall_back badParse 100 qBad).2.1 rfl,
   (C7_malformed_dates_fall_back revParse 100 qRev).2.2 31 0 rfl rfl (by decide)⟩

/-- C8: on the spec's scenario (two publishers, each with views 10,
clicks 1, cost 1.00 on the same date), the day-aggregation loop of
`AllPublisherReportView.get_context_data` merges the rows by date into
views 20, clicks 2, cost 2.00 with CTR recomputed from the summed values
(10.0), keeping the per-publisher breakdown — but the view then discards
this `days` dict: the returned context (`AllPublisherContext`) does not
contain it, so the merged per-day data is not part of the report output. -/
theorem C8_merged_day_computed_then_discarded :
    aggregate_days
      (((AllPublisherReportView.get_context_data scenario_renv scenario_query).publishers_and_reports).map
        (fun pr => (pr.1.name, pr.2))) =
      [{ date := 5, views := 20, clicks := 2, cost := 2, ctr := 10,
         views_by_entity := [("P1", 10), ("P2", 10)],
         clicks_by_entity := [("P1", 1), ("P2", 1)] }] ∧
    (AllPublisherReportView.get_context_data scenario_renv scenario_query).total_views = 20 := by
  constructor
  · simp +decide [aggregate_days, AllPublisherReportView.get_context_data,
      allPublisher_pars, allPublisher_selected, allPublisher_impressions,
      BaseReportView.get_context_data, get_start_date, get_end_date, scenario_renv,
      scenario_query, scenario_report, empty_report, pub1, pub2, upsert_day, update_day,
      blank_day, dictInsert, calculate_ctr]
    norm_num
  · decide

/-! Helper lemmas about the day-aggregation loop and the retained-entity
lists, shared by the report claims. -/

@[simp]
theorem update_day_date (name : String) (row : DayRow) (a : DayAgg) :
    (update_day name row a).date = a.date :=
  rfl

@[simp]
theorem blank_day_date (d : Date) : (blank_day d).date = d :=
  rfl

theorem mem_dates_upsert_mono (name : String) (row : DayRow) (d : Date)
    (acc : List DayAgg) (h : d ∈ acc.map DayAgg.date) :
    d ∈ (upsert_day name row acc).map DayAgg.date := by
  induction acc with
  | nil => simp at h
  | cons a rest ih =>
    simp only [List.map_cons, List.mem_cons] at h
    by_cases hd : a.date = row.date
    · simp only [upsert_day, if_pos hd, List.map_cons, List.mem_cons, update_day_date]
      exact h
    · simp only [upsert_day, if_neg hd, List.map_cons, List.mem_cons]
      rcases h with h | h
      · exact Or.inl h
      · exact Or.inr (ih h)

theorem mem_dates_upsert_self (name : String) (row : DayRow) (acc : List DayAgg) :
    row.date ∈ (upsert_day name row acc).map DayAgg.date := by
  induction acc with
  | nil => simp [upsert_day]
  | cons a rest ih =>
    by_cases hd : a.date = row.date
    · simp [upsert_day, if_pos hd, hd]
    · simp only [upsert_day, if_neg hd, List.map_cons, List.mem_cons]
      exact Or.inr ih

theorem mem_dates_fold_days_mono (name : String) (rows : List DayRow) (d : Date)
    (acc : List DayAgg) (h : d ∈ acc.map DayAgg.date) :
    d ∈ (rows.foldl (fun days day => upsert_day name day days) acc).map DayAgg.date := by
  induction rows generalizing acc with
  | nil => simpa using h
  | cons r rs ih =>
    rw [List.foldl_cons]
    exact ih _ (mem_dates_upsert_mono name r d acc h)

theorem mem_dates_fold_days_self (name : String) (rows : List DayRow) (row : DayRow)
    (acc : List DayAgg) (h : row ∈ rows) :
    row.date ∈ (rows.foldl (fun days day => upsert_day name day days) acc).map DayAgg.date := by
  induction rows generalizing acc with
  | nil => simp at h
  | cons r rs ih =>
    rw [List.foldl_cons]
    rcases List.mem_cons.mp h with h1 | h2
    · subst h1
      exact mem_dates_fold_days_mono name rs row.date _ (mem_dates_upsert_self name row acc)
    · exact ih _ h2

theorem mem_dates_fold_entries_mono (entries : List (String × Report)) (d : Date)
    (acc : List DayAgg) (h : d ∈ acc.map DayAgg.date) :
    d ∈ (entries.foldl
        (fun days e => e.2.days.foldl (fun days day => upsert_day e.1 day days) days)
        acc).map DayAgg.date := by
  induction entries generalizing acc with
  | nil => simpa using h
  | cons e es ih =>
    rw [List.foldl_cons]
    exact ih _ (mem_dates_fold_days_mono e.1 e.2.days d acc h)

theorem mem_dates_aggregate (entries : List (String × Report)) (e : String × Report)
    (he : e ∈ entries) (row : DayRow) (hrow : row ∈ e.2.days) :
    row.date ∈ (aggregate_days entries).map DayAgg.date := by
  suffices H : ∀ entries' : List (String × Report), e ∈ entries' → ∀ acc : List DayAgg,
      row.date ∈ (entries'.foldl
        (fun days e => e.2.days.foldl (fun days day => upsert_day e.1 day days) days)
        acc).map DayAgg.date from H entries he []
  intro entries'
  induction entries' with
  | nil => intro he'; simp at he'
  | cons e' es ih =>
    intro he' acc
    rw [List.foldl_cons]
    rcases List.mem_cons.mp he' with h1 | h2
    · subst h1
      exact mem_dates_fold_entries_mono es row.date _
        (mem_dates_fold_days_self e.1 e.2.days row acc hrow)
    · exact ih h2 _

theorem mem_allPublisher_pars (renv : ReportsEnv) (q : ReportQuery) (p : Publisher)
    (r : Report) (h : (p, r) ∈ allPublisher_pars renv q) :
    p ∈ allPublisher_selected renv q ∧
    r = renv.publisher_daily_reports p.id
      (BaseReportView.get_context_data renv.parse renv.today q).start_date
      (BaseReportView.get_context_data renv.parse renv.today q).end_date ∧
    0 < r.total.views := by
  simp only [allPublisher_pars, List.mem_filterMap] at h
  obtain ⟨a, ha, hfa⟩ := h
  by_cases hv : 0 < (renv.publisher_daily_reports a.id
      (BaseReportView.get_context_data renv.parse renv.today q).start_date
      (BaseReportView.get_context_data renv.parse renv.today q).end_date).total.views
  · rw [if_pos hv] at hfa
    obtain ⟨hp, hr⟩ := Prod.mk.injEq .. ▸ Option.some.injEq .. ▸ hfa
    subst hp
    exact ⟨ha, hr.symm, hr ▸ hv⟩
  · rw [if_neg hv] at hfa
    exact absurd hfa (by simp)

theorem mem_allAdvertiser_pars (renv : ReportsEnv) (q : ReportQuery) (a : Advertiser)
    (r : Report) (h : (a, r) ∈ allAdvertiser_pars renv q) :
    a ∈ allAdvertiser_selected renv q ∧
    r = renv.advertiser_daily_reports a.id
      (BaseReportView.get_context_data renv.parse renv.today q).start_date
      (BaseReportView.get_context_data renv.parse renv.today q).end_date ∧
    0 < r.total.views := by
  simp only [allAdvertiser_pars, List.mem_filterMap] at h
  obtain ⟨x, hx, hfx⟩ := h
  by_cases hv : 0 < (renv.advertiser_daily_reports x.id
      (BaseReportView.get_context_data renv.parse renv.today q).start_date
      (BaseReportView.get_context_data renv.parse renv.today q).end_date).total.views
  · rw [if_pos hv] at hfx
    obtain ⟨hp, hr⟩ := Prod.mk.injEq .. ▸ Option.some.injEq .. ▸ hfx
    subst hp
    exact ⟨hx, hr.symm, hr ▸ hv⟩
  · rw [if_neg hv] at hfx
    exact absurd hfx (by simp)

theorem allPublisher_pars_append (renv : ReportsEnv) (q : ReportQuery)
    (zs : List Publisher) :
    allPublisher_pars { renv with publishers_table := renv.publishers_table ++ zs } q =
      allPublisher_pars renv q ++
        (zs.filter
          (fun p => ((allPublisher_impressions renv q).map ImpressionRow.publisher).contains p.id)).filterMap
          (fun publisher =>
            let report := renv.publisher_daily_reports publisher.id
              (BaseReportView.get_context_data renv.parse renv.today q).start_date
              (BaseReportView.get_context_data renv.parse renv.today q).end_date
            if 0 < report.total.views then some (publisher, report) else none) := by
  show ((renv.publishers_table ++ zs).filter _).filterMap _ = _
  rw [List.filter_append, List.filterMap_append]
  exact rfl

theorem allAdvertiser_pars_append (renv : ReportsEnv) (q : ReportQuery)
    (ws : List Advertiser) :
    allAdvertiser_pars { renv with advertisers_table := renv.advertisers_table ++ ws } q =
      allAdvertiser_pars renv q ++
        (ws.filter
          (fun a => ((allAdvertiser_impressions renv q).map ImpressionRow.advertiser).contains a.id)).filterMap
          (fun advertiser =>
            let report := renv.advertiser_daily_reports advertiser.id
              (BaseReportView.get_context_data renv.parse renv.today q).start_date
              (BaseReportView.get_context_data renv.parse renv.today q).end_date
            if 0 < report.total.views then some (advertiser, report) else none) := by
  show ((renv.advertisers_table ++ ws).filter _).filterMap _ = _
  rw [List.filter_append, List.filterMap_append]
  exact rfl

theorem mem_allPublisher_impressions (renv : ReportsEnv) (q : ReportQuery)
    (row : ImpressionRow) (h : row ∈ allPublisher_impressions renv q) :
    row ∈ renv.impressions ∧
    (BaseReportView.get_context_data renv.parse renv.today q).start_date ≤ row.date ∧
    (∀ e : Date, (BaseReportView.get_context_data renv.parse renv.today q).end_date = some e →
      row.date ≤ e) ∧
    (((BaseReportView.get_context_data renv.parse renv.today q).campaign_type ≠ "" ∧
        (BaseReportView.get_context_data renv.parse renv.today q).campaign_type ∈
          renv.CAMPAIGN_TYPES) →
      row.campaign_type = (BaseReportView.get_context_data renv.parse renv.today q).campaign_type) := by
  rcases hend : (BaseReportView.get_context_data renv.parse renv.today q).end_date with _ | e
  · simp only [allPublisher_impressions, hend] at h
    by_cases hcond : ((BaseReportView.get_context_data renv.parse renv.today q).campaign_type ≠ "" ∧
        (BaseReportView.get_context_data renv.parse renv.today q).campaign_type ∈
          renv.CAMPAIGN_TYPES)
    · rw [if_pos hcond] at h
      simp only [List.mem_filter, decide_eq_true_eq] at h
      exact ⟨h.1.1, h.1.2, fun e' he' => Option.noConfusion he', fun _ => h.2⟩
    · rw [if_neg hcond] at h
      simp only [List.mem_filter, decide_eq_true_eq] at h
      exact ⟨h.1, h.2, fun e' he' => Option.noConfusion he', fun hc => absurd hc hcond⟩
  · simp only [allPublisher_impressions, hend] at h
    by_cases hcond : ((BaseReportView.get_context_data renv.parse renv.today q).campaign_type ≠ "" ∧
        (BaseReportView.get_context_data renv.parse renv.today q).campaign_type ∈
          renv.CAMPAIGN_TYPES)
    · rw [if_pos hcond] at h
      simp only [List.mem_filter, decide_eq_true_eq] at h
      exact ⟨h.1.1.1, h.1.1.2, fun e' he' => (Option.some.inj he') ▸ h.1.2, fun _ => h.2⟩
    · rw [if_neg hcond] at h
      simp only [List.mem_filter, decide_eq_true_eq] at h
      exact ⟨h.1.1, h.1.2, fun e' he' => (Option.some.inj he') ▸ h.2, fun hc => absurd hc hcond⟩

/-- C9: in both multi-entity reports, an entity whose report over the
range has zero total views is excluded from the returned entity list, and
adding such an entity to the table changes nothing in the returned
context; every date carried by a retained entity's report is present in
the merged-by-day aggregation (so a date stays in the date totals as long
as some retained entity had data that day); and the grand totals are the
sums over exactly the retained entities with CTR and ECPM derived from
those sums. -/
theorem C9_zero_view_entities_excluded (renv : ReportsEnv) (q : ReportQuery) :
    (∀ p : Publisher,
      (renv.publisher_daily_reports p.id
          (AllPublisherReportView.get_context_data renv q).start_date
          (AllPublisherReportView.get_context_data renv q).end_date).total.views = 0 →
      p ∉ (AllPublisherReportView.get_context_data renv q).publishers) ∧
    (∀ a : Advertiser,
      (renv.advertiser_daily_reports a.id
          (AllAdvertiserReportView.get_context_data renv q).start_date
          (AllAdvertiserReportView.get_context_data renv q).end_date).total.views = 0 →
      a ∉ (AllAdvertiserReportView.get_context_data renv q).advertisers) ∧
    (∀ pr ∈ (AllPublisherReportView.get_context_data renv q).publishers_and_reports,
      ∀ row ∈ pr.2.days,
      row.date ∈
        (aggregate_days
          ((AllPublisherReportView.get_context_data renv q).publishers_and_reports.map
            (fun x => (x.1.name, x.2)))).map DayAgg.date) ∧
    (∀ ar ∈ (AllAdvertiserReportView.get_context_data renv q).advertisers_and_reports,
      ∀ row ∈ ar.2.days,
      row.date ∈
        (aggregate_days
          ((AllAdvertiserReportView.get_context_data renv q).advertisers_and_reports.map
            (fun x => (x.1.name, x.2)))).map DayAgg.date) ∧
    (∀ z : Publisher,
      (renv.publisher_daily_reports z.id
          (AllPublisherReportView.get_context_data renv q).start_date
          (AllPublisherReportView.get_context_data renv q).end_date).total.views = 0 →
      AllPublisherReportView.get_context_data
          { renv with publishers_table := renv.publishers_table ++ [z] } q =
        AllPublisherReportView.get_context_data renv q) ∧
    (∀ w : Advertiser,
      (renv.advertiser_daily_reports w.id
          (AllAdvertiserReportView.get_context_data renv q).start_date
          (AllAdvertiserReportView.get_context_data renv q).end_date).total.views = 0 →
      AllAdvertiserReportView.get_context_data
          { renv with advertisers_table := renv.advertisers_table ++ [w] } q =
        AllAdvertiserReportView.get_context_data renv q) ∧
    ((AllPublisherReportView.get_context_data renv q).total_views =
        ((AllPublisherReportView.get_context_data renv q).publishers_and_reports.map
          (fun pr => pr.2.total.views)).sum ∧
      (AllPublisherReportView.get_context_data renv q).total_clicks =
        ((AllPublisherReportView.get_context_data renv q).publishers_and_reports.map
          (fun pr => pr.2.total.clicks)).sum ∧
      (AllPublisherReportView.get_context_data renv q).total_cost =
        ((AllPublisherReportView.get_context_data renv q).publishers_and_reports.map
          (fun pr => pr.2.total.cost)).sum ∧
      (AllPublisherReportView.get_context_data renv q).total_ctr =
        calculate_ctr (AllPublisherReportView.get_context_data renv q).total_clicks
          (AllPublisherReportView.get_context_data renv q).total_views ∧
      (AllPublisherReportView.get_context_data renv q).total_ecpm =
        calculate_ecpm (AllPublisherReportView.get_context_data renv q).total_cost
          (AllPublisherReportView.get_context_data renv q).total_views ∧
      (AllAdvertiserReportView.get_context_data renv q).total_views =
        ((AllAdvertiserReportView.get_context_data renv q).advertisers_and_reports.map
          (fun ar => ar.2.total.views)).sum ∧
      (AllAdvertiserReportView.get_context_data renv q).total_ctr =
        calculate_ctr (AllAdvertiserReportView.get_context_data renv q).total_clicks
          (AllAdvertiserReportView.get_context_data renv q).total_views) := by
  refine ⟨?_, ?_, ?_, ?_, ?_, ?_, rfl, rfl, rfl, rfl, rfl, rfl, rfl⟩
  · intro p h hmem
    have hmem' : p ∈ (allPublisher_pars renv q).map Prod.fst := hmem
    obtain ⟨pr, hpr, hfst⟩ := List.mem_map.mp hmem'
    obtain ⟨p', r⟩ := pr
    have hid : p' = p := hfst
    rw [hid] at hpr
    obtain ⟨-, hr, hv⟩ := mem_allPublisher_pars renv q p r hpr
    have h' : (renv.publisher_daily_reports p.id
        (BaseReportView.get_context_data renv.parse renv.today q).start_date
        (BaseReportView.get_context_data renv.parse renv.today q).end_date).total.views = 0 := h
    rw [← hr] at h'
    rw [h'] at hv
    exact absurd hv (by simp)
  · intro a h hmem
    have hmem' : a ∈ (allAdvertiser_pars renv q).map Prod.fst := hmem
    obtain ⟨ar, har, hfst⟩ := List.mem_map.mp hmem'
    obtain ⟨a', r⟩ := ar
    have hid : a' = a := hfst
    rw [hid] at har
    obtain ⟨-, hr, hv⟩ := mem_allAdvertiser_pars renv q a r har
    have h' : (renv.advertiser_daily_reports a.id
        (BaseReportView.get_context_data renv.parse renv.today q).start_date
        (BaseReportView.get_context_data renv.parse renv.today q).end_date).total.views = 0 := h
    rw [← hr] at h'
    rw [h'] at hv
    exact absurd hv (by simp)
  · intro pr hpr row hrow
    have hpr' : pr ∈ allPublisher_pars renv q := hpr
    exact mem_dates_aggregate _ (pr.1.name, pr.2)
      (List.mem_map.mpr ⟨pr, hpr', rfl⟩) row hrow
  · intro ar har row hrow
    have har' : ar ∈ allAdvertiser_pars renv q := har
    exact mem_dates_aggregate _ (ar.1.name, ar.2)
      (List.mem_map.mpr ⟨ar, har', rfl⟩) row hrow
  · intro z hz
    have hzv : (renv.publisher_daily_reports z.id
        (BaseReportView.get_context_data renv.parse renv.today q).start_date
        (BaseReportView.get_context_data renv.parse renv.today q).end_date).total.views = 0 := hz
    have hpars : allPublisher_pars
        { renv with publishers_table := renv.publishers_table ++ [z] } q =
        allPublisher_pars renv q := by
      rw [allPublisher_pars_append renv q [z]]
      simp [hzv]
    simp only [AllPublisherReportView.get_context_data]
    rw [hpars]
  · intro w hw
    have hwv : (renv.advertiser_daily_reports w.id
        (BaseReportView.get_context_data renv.parse renv.today q).start_date
        (BaseReportView.get_context_data renv.parse renv.today q).end_date).total.views = 0 := hw
    have hpars : allAdvertiser_pars
        { renv with advertisers_table := renv.advertisers_table ++ [w] } q =
        allAdvertiser_pars renv q := by
      rw [allAdvertiser_pars_append renv q [w]]
      simp [hwv]
    simp only [AllAdvertiserReportView.get_context_data]
    rw [hpars]

/-- C9 witness: in the two-publisher scenario, the zero-view publisher P3
is excluded from the publisher list, day 5 (carried by the retained
publishers) is present in the merged-by-day dates, and appending P3 to the
publisher table leaves the whole returned context unchanged. -/
theorem C9_witness :
    (⟨3, "P3", "p3"⟩ : Publisher) ∉
      (AllPublisherReportView.get_context_data scenario_renv scenario_query).publishers ∧
    (5 : Date) ∈
      (aggregate_days
        ((AllPublisherReportView.get_context_data scenario_renv scenario_query).publishers_and_reports.map
          (fun x => (x.1.name, x.2)))).map DayAgg.date ∧
    AllPublisherReportView.get_context_data
        { scenario_renv with
            publishers_table := scenario_renv.publishers_table ++ [⟨3, "P3", "p3"⟩] }
        scenario_query =
      AllPublisherReportView.get_context_data scenario_renv scenario_query := by
  refine ⟨(C9_zero_view_entities_excluded scenario_renv scenario_query).1 ⟨3, "P3", "p3"⟩ rfl,
    ?_,
    (C9_zero_view_entities_excluded scenario_renv scenario_query).2.2.2.2.1 ⟨3, "P3", "p3"⟩ rfl⟩
  exact (C9_zero_view_entities_excluded scenario_renv scenario_query).2.2.1
    (pub1, scenario_report) (by decide)
    { date := 5, views := 10, clicks := 1, cost := 1, ctr := 10, ecpm := 100 } (by decide)

/-- C10: the `campaign_type` query parameter of the all-publishers report
influences only the selection of publishers: every retained pair carries
exactly `daily_reports(publisher, start, end)` — a report that never sees
the campaign-type filter, so it sums all of that publisher's impressions;
every listed publisher has at least one impression row in the date range
(matching the campaign type when the filter is active); and a
`campaign_type` not in `CAMPAIGN_TYPES` is ignored entirely — the context
it produces is the no-filter context with only the echoed `campaign_type`
string differing. -/
theorem C10_campaign_type_only_selects (renv : ReportsEnv) (q : ReportQuery) :
    (∀ pr ∈ (AllPublisherReportView.get_context_data renv q).publishers_and_reports,
      pr.2 = renv.publisher_daily_reports pr.1.id
        (AllPublisherReportView.get_context_data renv q).start_date
        (AllPublisherReportView.get_context_data renv q).end_date) ∧
    (∀ p ∈ (AllPublisherReportView.get_context_data renv q).publishers,
      ∃ row ∈ renv.impressions,
        row.publisher = p.id ∧
        (AllPublisherReportView.get_context_data renv q).start_date ≤ row.date ∧
        (∀ e : Date,
          (AllPublisherReportView.get_context_data renv q).end_date = some e →
            row.date ≤ e) ∧
        (((AllPublisherReportView.get_context_data renv q).campaign_type ≠ "" ∧
            (AllPublisherReportView.get_context_data renv q).campaign_type ∈
              renv.CAMPAIGN_TYPES) →
          row.campaign_type = (AllPublisherReportView.get_context_data renv q).campaign_type)) ∧
    (∀ ct : String, ct ∉ renv.CAMPAIGN_TYPES →
      AllPublisherReportView.get_context_data renv { q with campaign_type := some ct } =
        { AllPublisherReportView.get_context_data renv
            { q with campaign_type := some "" } with
          campaign_type := ct }) := by
  refine ⟨?_, ?_, ?_⟩
  · intro pr hpr
    have hpr' : pr ∈ allPublisher_pars renv q := hpr
    obtain ⟨p, r⟩ := pr
    exact (mem_allPublisher_pars renv q p r hpr').2.1
  · intro p hp
    have hp' : p ∈ (allPublisher_pars renv q).map Prod.fst := hp
    obtain ⟨pr, hpr, hfst⟩ := List.mem_map.mp hp'
    obtain ⟨p', r⟩ := pr
    have hid : p' = p := hfst
    rw [hid] at hpr
    have hsel := (mem_allPublisher_pars renv q p r hpr).1
    have hpred := (List.mem_filter.mp hsel).2
    have hmemid : p.id ∈ (allPublisher_impressions renv q).map ImpressionRow.publisher := by
      simpa using hpred
    obtain ⟨row, hrow, hpub⟩ := List.mem_map.mp hmemid
    obtain ⟨h1, h2, h3, h4⟩ := mem_allPublisher_impressions renv q row hrow
    exact ⟨row, h1, hpub, h2, h3, h4⟩
  · intro ct hct
    have hc1 : ¬((BaseReportView.get_context_data renv.parse renv.today
          { q with campaign_type := some ct }).campaign_type ≠ "" ∧
        (BaseReportView.get_context_data renv.parse renv.today
          { q with campaign_type := some ct }).campaign_type ∈ renv.CAMPAIGN_TYPES) := by
      rintro ⟨-, h2⟩
      exact hct h2
    have hc0 : ¬((BaseReportView.get_context_data renv.parse renv.today
          { q with campaign_type := some "" }).campaign_type ≠ "" ∧
        (BaseReportView.get_context_data renv.parse renv.today
          { q with campaign_type := some "" }).campaign_type ∈ renv.CAMPAIGN_TYPES) := by
      rintro ⟨h1, -⟩
      exact h1 rfl
    have himp : allPublisher_impressions renv { q with campaign_type := some ct } =
        allPublisher_impressions renv { q with campaign_type := some "" } := by
      simp only [allPublisher_impressions]
      rw [if_neg hc1, if_neg hc0]
      exact rfl
    have hpars : allPublisher_pars renv { q with campaign_type := some ct } =
        allPublisher_pars renv { q with campaign_type := some "" } := by
      simp only [allPublisher_pars, allPublisher_selected]
      rw [himp]
      exact rfl
    simp only [AllPublisherReportView.get_context_data]
    rw [hpars]
    exact rfl

/-- C10 witness: in the two-publisher scenario, the retained pair for P1
carries exactly P1's unfiltered daily report, and the unknown campaign
type "video" produces the same context as no filter (only the echoed
`campaign_type` string differs). -/
theorem C10_witness :
    ((pub1, scenario_report) :
        Publisher × Report).2 = scenario_renv.publisher_daily_reports (pub1, scenario_report).1.id
      (AllPublisherReportView.get_context_data scenario_renv scenario_query).start_date
      (AllPublisherReportView.get_context_data scenario_renv scenario_query).end_date ∧
    AllPublisherReportView.get_context_data scenario_renv
        { scenario_query with campaign_type := some "video" } =
      { AllPublisherReportView.get_context_data scenario_renv
          { scenario_query with campaign_type := some "" } with
        campaign_type := "video" } :=
  ⟨(C10_campaign_type_only_selects scenario_renv scenario_query).1
      (pub1, scenario_report) (by decide),
   (C10_campaign_type_only_selects scenario_renv scenario_query).2.2 "video" (by decide)⟩

end AdServer
